import Mathlib

/-!
Verification of `muttlib/gcd.py`: the `TimeRangeConfiguration` value object
and the `AttributeHelperMixin` lazy attribute bag.

Shallow embedding conventions:
* A timezone-naive timestamp is a `DateTime` record of calendar components
  (`day` counts whole days from an arbitrary epoch; `hour`, `minute`,
  `second`, `microsecond` are the time-of-day components).  Python compares
  such timestamps lexicographically by components; on in-range components
  (`DateTime.Valid`) that order coincides with comparing `DateTime.key`,
  the microsecond count from the epoch, which is what we use for `≤`.
* Python exceptions raised during `__init__` are modelled by `Except PyError`:
  a constructor of `PyError` records the identity of the exception together with
  the data interpolated into its message.
* The dynamically materialized mixin attributes `_metrics` / `_artifacts`
  are modelled as `Option`-valued fields (`none` = attribute absent,
  `some c` = attribute present holding container `c`); each Python method
  becomes a function from the old state to the new state (plus the returned
  value for the getters).
-/

/-- Calendar components of a timezone-naive timestamp.  `day` is the number
of whole days since an arbitrary epoch (it may be negative). -/
structure DateTime where
  day : Int
  hour : Nat
  minute : Nat
  second : Nat
  microsecond : Nat
deriving DecidableEq, Repr

/-- Microseconds since the epoch; for component-valid datetimes the order of
keys is exactly the Python datetime comparison. -/
def DateTime.key (d : DateTime) : Int :=
  (((d.day * 24 + (d.hour : Int)) * 60 + (d.minute : Int)) * 60
      + (d.second : Int)) * 1000000 + (d.microsecond : Int)

instance : LE DateTime := ⟨fun a b => a.key ≤ b.key⟩

instance (a b : DateTime) : Decidable (a ≤ b) :=
  inferInstanceAs (Decidable (a.key ≤ b.key))

/-- The components are in the ranges the Python `datetime` admits.  (`day` is
unconstrained since the epoch offset of a real date can be any integer.) -/
def DateTime.Valid (d : DateTime) : Prop :=
  d.hour < 24 ∧ d.minute < 60 ∧ d.second < 60 ∧ d.microsecond < 1000000

instance (d : DateTime) : Decidable d.Valid :=
  inferInstanceAs (Decidable (_ ∧ _ ∧ _ ∧ _))

/-- Shift by `n` whole days (`timestamp ± pd.offsets.Day(n)`): the time-of-day
components are untouched. -/
def DateTime.addDays (d : DateTime) (n : Int) : DateTime :=
  ⟨d.day + n, d.hour, d.minute, d.second, d.microsecond⟩

/-- The Python `datetime.replace(hour=h)`: overwrite the hour component only.
The range check `h < 24` that `replace` performs is done by the caller
(`TimeRangeConfiguration.init`) before calling this. -/
def DateTime.replaceHour (d : DateTime) (h : Nat) : DateTime :=
  ⟨d.day, h, d.minute, d.second, d.microsecond⟩

/-- Exceptions that `TimeRangeConfiguration.__init__` can raise, each
constructor carrying the data interpolated into the message of the exception.
* `keyError g` — `KeyError` from `TIME_GRANULARITY_NAME_MAP[time_granularity]`
  (gcd.py line 119); the message is the offending key `g`.
* `badHour h` — `ValueError` from `datetime.replace(hour=h)` with `h` out of
  range (gcd.py line 113).
* `badDatesStartEnd s e` — the `ValueError` whose message is
  `Bad dates passed. Start:{s}, end:{e}.`
  (gcd.py lines 124-127).
* `badDatesEndFuture e f` — the `ValueError` whose message is
  `Bad dates passed. End:{e}, future:{f}.`
  (gcd.py lines 128-131).
* `badGranularity g` — the `ValueError` whose message is
  `Bad time granularity passed:{g}, ...`
  (gcd.py lines 132-136). -/
inductive PyError where
  | keyError (key : String)
  | badHour (h : Nat)
  | badDatesStartEnd (s e : DateTime)
  | badDatesEndFuture (e f : DateTime)
  | badGranularity (g : String)
deriving DecidableEq, Repr

/-- Modelled from the spec: `muttlib.utils.create_forecaster_dates` is not in
the reviewed source; per spec §2/§6 it is the external DateWindowDeriver
mapping `(end_date, train_window_len, future_window_len)` to
`(start_date, end_date, future_date)`, where the train window counts days
prior to `end_date` and the future window days after it (spec §4.1), as pinned
by the spec §8 scenario `2019-07-01, 1460, 365 ↦ (2015-07-02, 2019-07-01,
2020-06-30)`. -/
def create_forecaster_dates (end_date : DateTime)
    (forecast_train_window forecast_future_window : Int) :
    DateTime × DateTime × DateTime :=
  (end_date.addDays (-forecast_train_window),
   end_date,
   end_date.addDays forecast_future_window)

/-- The lazily materialized per-instance attributes of `AttributeHelperMixin`:
`none` models "attribute does not exist yet", `some c` models the attribute
holding container `c`.  Metric values have type `V` and artifact paths type
`A`; metric keys are strings.  The metrics dict is an insertion-ordered
association list, matching Python dict semantics. -/
structure AttributeHelperMixin (V A : Type) where
  _metrics : Option (List (String × V))
  _artifacts : Option (List A)
deriving DecidableEq, Repr

namespace AttributeHelperMixin

/-- A freshly constructed object that was never logged to: neither attribute
exists. -/
def fresh (V A : Type) : AttributeHelperMixin V A := ⟨none, none⟩

/-- `_get_init` at name `_metrics` and default `{}` (gcd.py lines 30-44): if
the attribute does not exist, set it to an empty dict. -/
def _get_init_dict (s : AttributeHelperMixin V A) : AttributeHelperMixin V A :=
  match s._metrics with
  | none => ⟨some [], s._artifacts⟩
  | some _ => s

/-- `_get_init` at name `_artifacts` and default `[]` (gcd.py lines 30-47): if
the attribute does not exist, set it to an empty list. -/
def _get_init_list (s : AttributeHelperMixin V A) : AttributeHelperMixin V A :=
  match s._artifacts with
  | none => ⟨s._metrics, some []⟩
  | some _ => s

/-- Python dict item assignment `m[k] = v` on an insertion-ordered dict:
overwrite in place if the key is present, else append. -/
def dictSet : List (String × V) → String → V → List (String × V)
  | [], k, v => [(k, v)]
  | (a, b) :: tl, k, v =>
      if a == k then (a, v) :: tl else (a, b) :: dictSet tl k v

/-- Python `m.update(d)` where `d` is given by its items in iteration
order: assign each item in turn. -/
def dictUpdate (m d : List (String × V)) : List (String × V) :=
  d.foldl (fun acc p => dictSet acc p.1 p.2) m

/-- `log_artifact(path)` (gcd.py lines 49-51): ensure `_artifacts` exists,
then append. -/
def log_artifact (s : AttributeHelperMixin V A) (path : A) :
    AttributeHelperMixin V A :=
  let s2 := s._get_init_list
  ⟨s2._metrics, some (s2._artifacts.getD [] ++ [path])⟩

/-- `get_artifacts()` (gcd.py lines 53-55): ensure `_artifacts` exists, then
return it (the state after the call is returned alongside). -/
def get_artifacts (s : AttributeHelperMixin V A) :
    AttributeHelperMixin V A × List A :=
  let s2 := s._get_init_list
  (s2, s2._artifacts.getD [])

/-- `log_metrics(d)` (gcd.py lines 57-59): ensure `_metrics` exists, then
`self._metrics.update(d)`. -/
def log_metrics (s : AttributeHelperMixin V A) (d : List (String × V)) :
    AttributeHelperMixin V A :=
  let s2 := s._get_init_dict
  ⟨some (dictUpdate (s2._metrics.getD []) d), s2._artifacts⟩

/-- `log_metric(k, v)` (gcd.py lines 61-62): `self.log_metrics({k: v})`. -/
def log_metric (s : AttributeHelperMixin V A) (k : String) (v : V) :
    AttributeHelperMixin V A :=
  s.log_metrics [(k, v)]

/-- `get_metrics()` (gcd.py lines 64-66): ensure `_metrics` exists, then
return it (the state after the call is returned alongside). -/
def get_metrics (s : AttributeHelperMixin V A) :
    AttributeHelperMixin V A × List (String × V) :=
  let s2 := s._get_init_dict
  (s2, s2._metrics.getD [])

end AttributeHelperMixin

/-- `TimeRangeConfiguration` (gcd.py lines 69-176): the mixin attributes plus
the seven fields set by `__init__`. -/
structure TimeRangeConfiguration (V A : Type) extends AttributeHelperMixin V A where
  _start_date : DateTime
  _end_date : DateTime
  _future_date : DateTime
  _forecast_train_window : Int
  _forecast_future_window : Int
  _time_granularity : String
  _time_granularity_name : String
deriving DecidableEq, Repr

namespace TimeRangeConfiguration

def HOURLY_TIME_GRANULARITY : String := "H"

def DAILY_TIME_GRANULARITY : String := "D"

def WEEKLY_TIME_GRANULARITY : String := "W"

def MONTHLY_TIME_GRANULARITY : String := "M"

/-- gcd.py lines 77-82. -/
def TIME_GRANULARITY_NAME_MAP : List (String × String) :=
  [(HOURLY_TIME_GRANULARITY, "hourly"),
   (DAILY_TIME_GRANULARITY, "daily"),
   (WEEKLY_TIME_GRANULARITY, "weekly"),
   (MONTHLY_TIME_GRANULARITY, "monthly")]

/-- gcd.py line 83: `list(TIME_GRANULARITY_NAME_MAP.keys())`. -/
def TIME_GRANULARITIES : List String :=
  TIME_GRANULARITY_NAME_MAP.map Prod.fst

/-- `_validate_construction` (gcd.py lines 122-136), checks in source order. -/
def _validate_construction (t : TimeRangeConfiguration V A) :
    Except PyError Unit :=
  if ¬ t._start_date ≤ t._end_date then
    .error (.badDatesStartEnd t._start_date t._end_date)
  else if ¬ t._end_date ≤ t._future_date then
    .error (.badDatesEndFuture t._end_date t._future_date)
  else if t._time_granularity ∉ TIME_GRANULARITIES then
    .error (.badGranularity t._time_granularity)
  else .ok ()

/-- `__init__` (gcd.py lines 85-120), in source evaluation order:
derive the dates, overwrite the hour of the derived end date with `end_hour`
(where the Python `replace` rejects an out-of-range hour), resolve the
display name of the granularity (a dict lookup that raises `KeyError` on an
unknown code), then run `_validate_construction`.  In the source `end_hour`
defaults to `0`.  An exception at any point means the caller receives no
object, which `Except.error` models. -/
def init {V A : Type} (end_date : DateTime)
    (forecast_train_window forecast_future_window : Int)
    (time_granularity : String) (end_hour : Nat) :
    Except PyError (TimeRangeConfiguration V A) :=
  let (sd, ed, fd) :=
    create_forecaster_dates end_date forecast_train_window forecast_future_window
  if 24 ≤ end_hour then .error (.badHour end_hour)
  else
    match List.lookup time_granularity TIME_GRANULARITY_NAME_MAP with
    | none => .error (.keyError time_granularity)
    | some nm =>
        let t : TimeRangeConfiguration V A :=
          ⟨⟨none, none⟩, sd, ed.replaceHour end_hour, fd,
           forecast_train_window, forecast_future_window, time_granularity, nm⟩
        match t._validate_construction with
        | .error e => .error e
        | .ok _ => .ok t

/-- The object `__init__` builds just before validating (gcd.py 111-119). -/
def preObject (V A : Type) (end_date : DateTime) (tw fw : Int)
    (g nm : String) (eh : Nat) : TimeRangeConfiguration V A :=
  ⟨⟨none, none⟩, end_date.addDays (-tw), end_date.replaceHour eh,
   end_date.addDays fw, tw, fw, g, nm⟩

/-- Property accessor (gcd.py lines 138-140). -/
def forecast_future_window (t : TimeRangeConfiguration V A) : Int :=
  t._forecast_future_window

/-- Property accessor (gcd.py lines 142-144). -/
def forecast_train_window (t : TimeRangeConfiguration V A) : Int :=
  t._forecast_train_window

/-- Property accessor (gcd.py lines 146-148). -/
def start_date (t : TimeRangeConfiguration V A) : DateTime := t._start_date

/-- Property accessor (gcd.py lines 150-152). -/
def end_date (t : TimeRangeConfiguration V A) : DateTime := t._end_date

/-- Property accessor (gcd.py lines 154-156). -/
def future_date (t : TimeRangeConfiguration V A) : DateTime := t._future_date

/-- Property accessor (gcd.py lines 158-160). -/
def time_granularity (t : TimeRangeConfiguration V A) : String :=
  t._time_granularity

/-- Property accessor (gcd.py lines 162-164). -/
def time_granularity_name (t : TimeRangeConfiguration V A) : String :=
  t._time_granularity_name

/-- gcd.py lines 166-167. -/
def is_hourly (t : TimeRangeConfiguration V A) : Bool :=
  t.time_granularity == HOURLY_TIME_GRANULARITY

/-- gcd.py lines 169-170. -/
def is_daily (t : TimeRangeConfiguration V A) : Bool :=
  t.time_granularity == DAILY_TIME_GRANULARITY

/-- gcd.py lines 172-173. -/
def is_weekly (t : TimeRangeConfiguration V A) : Bool :=
  t.time_granularity == WEEKLY_TIME_GRANULARITY

/-- gcd.py lines 175-176. -/
def is_monthly (t : TimeRangeConfiguration V A) : Bool :=
  t.time_granularity == MONTHLY_TIME_GRANULARITY

/-- The mixin methods inherited by `TimeRangeConfiguration` act on the mixin
attributes of `self` and touch nothing else; the date-window fields are
copied through unchanged. -/
def withBag (t : TimeRangeConfiguration V A) (b : AttributeHelperMixin V A) :
    TimeRangeConfiguration V A :=
  ⟨b, t._start_date, t._end_date, t._future_date, t._forecast_train_window,
   t._forecast_future_window, t._time_granularity, t._time_granularity_name⟩

/-- Inherited `log_metric` on a `TimeRangeConfiguration` instance. -/
def log_metric (t : TimeRangeConfiguration V A) (k : String) (v : V) :
    TimeRangeConfiguration V A :=
  t.withBag (t.toAttributeHelperMixin.log_metric k v)

/-- Inherited `log_metrics` on a `TimeRangeConfiguration` instance. -/
def log_metrics (t : TimeRangeConfiguration V A) (d : List (String × V)) :
    TimeRangeConfiguration V A :=
  t.withBag (t.toAttributeHelperMixin.log_metrics d)

/-- Inherited `log_artifact` on a `TimeRangeConfiguration` instance. -/
def log_artifact (t : TimeRangeConfiguration V A) (p : A) :
    TimeRangeConfiguration V A :=
  t.withBag (t.toAttributeHelperMixin.log_artifact p)

/-- Inherited `get_metrics` on a `TimeRangeConfiguration` instance. -/
def get_metrics (t : TimeRangeConfiguration V A) :
    TimeRangeConfiguration V A × List (String × V) :=
  let r := t.toAttributeHelperMixin.get_metrics
  (t.withBag r.1, r.2)

/-- Inherited `get_artifacts` on a `TimeRangeConfiguration` instance. -/
def get_artifacts (t : TimeRangeConfiguration V A) :
    TimeRangeConfiguration V A × List A :=
  let r := t.toAttributeHelperMixin.get_artifacts
  (t.withBag r.1, r.2)

/-- One call of an inherited mixin method (the return values of the getters are
discarded; only the state is tracked). -/
inductive MixinOp (V A : Type) where
  | logMetricOp (k : String) (v : V)
  | logMetricsOp (d : List (String × V))
  | logArtifactOp (p : A)
  | getMetricsOp
  | getArtifactsOp

/-- Run one mixin call on a `TimeRangeConfiguration` instance. -/
def applyOp (t : TimeRangeConfiguration V A) :
    MixinOp V A → TimeRangeConfiguration V A
  | .logMetricOp k v => t.log_metric k v
  | .logMetricsOp d => t.log_metrics d
  | .logArtifactOp p => t.log_artifact p
  | .getMetricsOp => (t.get_metrics).1
  | .getArtifactsOp => (t.get_artifacts).1

/-- Run a sequence of mixin calls. -/
def applyOps (t : TimeRangeConfiguration V A) (l : List (MixinOp V A)) :
    TimeRangeConfiguration V A :=
  l.foldl applyOp t

/-- The seven date-window fields, as read through the public accessors. -/
def dateFields (t : TimeRangeConfiguration V A) :
    DateTime × DateTime × DateTime × Int × Int × String × String :=
  (t.start_date, t.end_date, t.future_date, t.forecast_train_window,
   t.forecast_future_window, t.time_granularity, t.time_granularity_name)

end TimeRangeConfiguration

theorem DateTime.le_def (a b : DateTime) : a ≤ b ↔ a.key ≤ b.key := Iff.rfl

theorem DateTime.key_addDays (d : DateTime) (n : Int) :
    (d.addDays n).key = d.key + n * 86400000000 := by
  simp only [DateTime.addDays, DateTime.key]
  ring

theorem DateTime.key_replaceHour (d : DateTime) (h : Nat) :
    (d.replaceHour h).key
      = d.key - (d.hour : Int) * 3600000000 + (h : Int) * 3600000000 := by
  simp only [DateTime.replaceHour, DateTime.key]
  ring

namespace AttributeHelperMixin

theorem _get_init_dict_metrics (s : AttributeHelperMixin V A) :
    (s._get_init_dict)._metrics = some (s._metrics.getD []) := by
  cases h : s._metrics <;> simp [_get_init_dict, h]

theorem _get_init_dict_artifacts (s : AttributeHelperMixin V A) :
    (s._get_init_dict)._artifacts = s._artifacts := by
  cases h : s._metrics <;> simp [_get_init_dict, h]

theorem _get_init_list_artifacts (s : AttributeHelperMixin V A) :
    (s._get_init_list)._artifacts = some (s._artifacts.getD []) := by
  cases h : s._artifacts <;> simp [_get_init_list, h]

theorem _get_init_list_metrics (s : AttributeHelperMixin V A) :
    (s._get_init_list)._metrics = s._metrics := by
  cases h : s._artifacts <;> simp [_get_init_list, h]

theorem get_metrics_val (s : AttributeHelperMixin V A) :
    (s.get_metrics).2 = s._metrics.getD [] := by
  simp [get_metrics, _get_init_dict_metrics]

theorem get_artifacts_val (s : AttributeHelperMixin V A) :
    (s.get_artifacts).2 = s._artifacts.getD [] := by
  simp [get_artifacts, _get_init_list_artifacts]

theorem log_metrics_metrics (s : AttributeHelperMixin V A) (d : List (String × V)) :
    (s.log_metrics d)._metrics = some (dictUpdate (s._metrics.getD []) d) := by
  simp [log_metrics, _get_init_dict_metrics]

theorem log_artifact_artifacts (s : AttributeHelperMixin V A) (p : A) :
    (s.log_artifact p)._artifacts = some (s._artifacts.getD [] ++ [p]) := by
  simp [log_artifact, _get_init_list_artifacts]

theorem lookup_dictSet_self (m : List (String × V)) (k : String) (v : V) :
    List.lookup k (dictSet m k v) = some v := by
  induction m with
  | nil => simp [dictSet, List.lookup]
  | cons p tl ih =>
      obtain ⟨a, b⟩ := p
      by_cases hak : a = k
      · subst hak
        simp [dictSet, List.lookup, beq_self_eq_true]
      · rw [dictSet, if_neg (by simp [beq_eq_false_iff_ne.mpr hak])]
        rw [List.lookup, beq_eq_false_iff_ne.mpr (Ne.symm hak)]
        exact ih

theorem lookup_dictSet_ne (m : List (String × V)) (k : String) (v : V)
    (k' : String) (h : k' ≠ k) :
    List.lookup k' (dictSet m k v) = List.lookup k' m := by
  induction m with
  | nil => simp [dictSet, List.lookup, beq_eq_false_iff_ne.mpr h]
  | cons p tl ih =>
      obtain ⟨a, b⟩ := p
      by_cases hak : a = k
      · subst hak
        rw [dictSet, if_pos (beq_self_eq_true a)]
        rw [List.lookup, List.lookup, beq_eq_false_iff_ne.mpr h]
      · rw [dictSet, if_neg (by simp [beq_eq_false_iff_ne.mpr hak])]
        rw [List.lookup, List.lookup]
        cases hka : k' == a with
        | true => rfl
        | false => exact ih

theorem lookup_append (l1 l2 : List (String × V)) (k : String) :
    List.lookup k (l1 ++ l2) = (List.lookup k l1).or (List.lookup k l2) := by
  induction l1 with
  | nil => simp [List.lookup]
  | cons p tl ih =>
      obtain ⟨a, b⟩ := p
      rw [List.cons_append, List.lookup, List.lookup]
      cases hka : k == a with
      | true => rfl
      | false => exact ih

theorem lookup_dictUpdate (m d : List (String × V)) (k : String) :
    List.lookup k (dictUpdate m d)
      = (List.lookup k d.reverse).or (List.lookup k m) := by
  induction d generalizing m with
  | nil => simp [dictUpdate]
  | cons p tl ih =>
      obtain ⟨a, b⟩ := p
      rw [dictUpdate, List.foldl_cons]
      have : List.foldl (fun acc q => dictSet acc q.1 q.2) (dictSet m a b) tl
          = dictUpdate (dictSet m a b) tl := rfl
      rw [this, ih, List.reverse_cons, lookup_append]
      cases htl : List.lookup k tl.reverse with
      | some v => rfl
      | none =>
          show List.lookup k (dictSet m a b)
            = (List.lookup k [(a, b)]).or (List.lookup k m)
          by_cases hak : k = a
          · subst hak
            rw [lookup_dictSet_self, List.lookup, beq_self_eq_true]
            rfl
          · rw [lookup_dictSet_ne m a b k hak, List.lookup,
              beq_eq_false_iff_ne.mpr hak]
            rfl

end AttributeHelperMixin

namespace AttributeHelperMixin

/-- C6: on every attribute bag, `log_metric k v1` followed by `log_metric k v2`
leaves `get_metrics()` mapping `k` to `v2` (last write wins); generally,
`log_metrics d` merges `d` into the metrics mapping with per-key overwrite
(the last occurrence of a key in `d` wins) while keys absent from `d` keep
their previous values — `Option.or` expresses exactly this: the merged value
if `d` binds the key, the previous one otherwise. -/
theorem metrics_last_write_wins (V A : Type) (s : AttributeHelperMixin V A)
    (k : String) (v1 v2 : V) (d : List (String × V)) (k' : String) :
    List.lookup k (((s.log_metric k v1).log_metric k v2).get_metrics).2 = some v2
    ∧ List.lookup k' ((s.log_metrics d).get_metrics).2
        = (List.lookup k' d.reverse).or (List.lookup k' (s.get_metrics).2) := by
  constructor
  · rw [get_metrics_val, log_metric, log_metrics_metrics]
    show List.lookup k (dictUpdate _ [(k, v2)]) = some v2
    rw [dictUpdate, List.foldl_cons, List.foldl_nil]
    exact lookup_dictSet_self _ k v2
  · rw [get_metrics_val, log_metrics_metrics, get_metrics_val]
    simp only [Option.getD_some]
    exact lookup_dictUpdate _ d k'

/-- C7: on every attribute bag, any sequence of `log_artifact` calls extends
`get_artifacts()` by exactly the logged paths in insertion order (duplicates
allowed, nothing reordered); in particular, from a fresh object,
`log_artifact x` then `log_artifact y` yields `get_artifacts() = [x, y]`. -/
theorem artifacts_insertion_order (V A : Type) (s : AttributeHelperMixin V A)
    (ps : List A) (x y : A) :
    ((ps.foldl AttributeHelperMixin.log_artifact s).get_artifacts).2
      = (s.get_artifacts).2 ++ ps
    ∧ ((((AttributeHelperMixin.fresh V A).log_artifact x).log_artifact y).get_artifacts).2
      = [x, y] := by
  constructor
  · induction ps generalizing s with
    | nil => simp
    | cons p tl ih =>
        rw [List.foldl_cons, ih, get_artifacts_val, get_artifacts_val,
          log_artifact_artifacts]
        simp
  · rfl

/-- C8: on a freshly constructed object never logged to, `get_metrics()`
returns the empty mapping and `get_artifacts()` the empty sequence; both are
total functions here, so neither call errors. -/
theorem untouched_bag_empty (V A : Type) :
    ((AttributeHelperMixin.fresh V A).get_metrics).2 = []
    ∧ ((AttributeHelperMixin.fresh V A).get_artifacts).2 = [] :=
  ⟨rfl, rfl⟩

/-- C9: `get_metrics()` and `get_artifacts()` are idempotent — repeating the
call on the state the previous call left behind returns the same state and
value — and a get right after a log returns the logged-to state unchanged
(it never re-initializes the container back to empty). -/
theorem get_idempotent (V A : Type) (s : AttributeHelperMixin V A)
    (k : String) (v : V) (p : A) :
    (s.get_metrics).1.get_metrics = s.get_metrics
    ∧ (s.get_artifacts).1.get_artifacts = s.get_artifacts
    ∧ ((s.log_metric k v).get_metrics).1 = s.log_metric k v
    ∧ ((s.log_artifact p).get_artifacts).1 = s.log_artifact p := by
  refine ⟨?_, ?_, ?_, ?_⟩
  · cases h : s._metrics <;>
      simp [get_metrics, _get_init_dict, h]
  · cases h : s._artifacts <;>
      simp [get_artifacts, _get_init_list, h]
  · cases h : s._metrics <;>
      simp [get_metrics, _get_init_dict, log_metric, log_metrics, h]
  · cases h : s._artifacts <;>
      simp [get_artifacts, _get_init_list, log_artifact, h]

end AttributeHelperMixin

namespace TimeRangeConfiguration

/-- C10: running any sequence of inherited mixin calls (`log_metric`,
`log_metrics`, `log_artifact`, `get_metrics`, `get_artifacts`) on a
`TimeRangeConfiguration` leaves all seven date-window accessors —
`start_date`, `end_date`, `future_date`, `forecast_train_window`,
`forecast_future_window`, `time_granularity`, `time_granularity_name` —
returning the same values as before. -/
theorem logging_preserves_date_fields (V A : Type)
    (t : TimeRangeConfiguration V A) (ops : List (MixinOp V A)) :
    (t.applyOps ops).dateFields = t.dateFields := by
  induction ops generalizing t with
  | nil => rfl
  | cons o tl ih =>
      rw [applyOps, List.foldl_cons]
      have h1 : List.foldl applyOp (t.applyOp o) tl = (t.applyOp o).applyOps tl := rfl
      rw [h1, ih]
      cases o <;> rfl

end TimeRangeConfiguration

namespace TimeRangeConfiguration

theorem mem_granularities_iff (g : String) :
    g ∈ TIME_GRANULARITIES ↔ g = "H" ∨ g = "D" ∨ g = "W" ∨ g = "M" := by
  simp [TIME_GRANULARITIES, TIME_GRANULARITY_NAME_MAP, HOURLY_TIME_GRANULARITY,
    DAILY_TIME_GRANULARITY, WEEKLY_TIME_GRANULARITY, MONTHLY_TIME_GRANULARITY]

theorem lookup_granularity_none (g : String) (h : g ∉ TIME_GRANULARITIES) :
    List.lookup g TIME_GRANULARITY_NAME_MAP = none := by
  rw [mem_granularities_iff] at h
  push_neg at h
  obtain ⟨h1, h2, h3, h4⟩ := h
  rw [TIME_GRANULARITY_NAME_MAP]
  rw [HOURLY_TIME_GRANULARITY, DAILY_TIME_GRANULARITY, WEEKLY_TIME_GRANULARITY,
    MONTHLY_TIME_GRANULARITY]
  rw [List.lookup, beq_eq_false_iff_ne.mpr h1]
  rw [List.lookup, beq_eq_false_iff_ne.mpr h2]
  rw [List.lookup, beq_eq_false_iff_ne.mpr h3]
  rw [List.lookup, beq_eq_false_iff_ne.mpr h4]
  rfl

theorem lookup_granularity_of_mem (g : String) (h : g ∈ TIME_GRANULARITIES) :
    ∃ nm, List.lookup g TIME_GRANULARITY_NAME_MAP = some nm := by
  rw [mem_granularities_iff] at h
  rcases h with h | h | h | h <;> subst h
  · exact ⟨"hourly", rfl⟩
  · exact ⟨"daily", rfl⟩
  · exact ⟨"weekly", rfl⟩
  · exact ⟨"monthly", rfl⟩

theorem lookup_granularity_mem (g nm : String)
    (h : List.lookup g TIME_GRANULARITY_NAME_MAP = some nm) :
    g ∈ TIME_GRANULARITIES := by
  by_contra hg
  rw [lookup_granularity_none g hg] at h
  cases h

theorem init_keyError (V A : Type) (ed : DateTime) (tw fw : Int) (g : String)
    (eh : Nat) (h24 : eh < 24) (hg : g ∉ TIME_GRANULARITIES) :
    @init V A ed tw fw g eh = .error (.keyError g) := by
  unfold init create_forecaster_dates
  dsimp only
  rw [if_neg (by omega), lookup_granularity_none g hg]

theorem init_ok (V A : Type) (ed : DateTime) (tw fw : Int) (g nm : String)
    (eh : Nat) (h24 : eh < 24)
    (hlk : List.lookup g TIME_GRANULARITY_NAME_MAP = some nm)
    (h1 : ed.addDays (-tw) ≤ ed.replaceHour eh)
    (h2 : ed.replaceHour eh ≤ ed.addDays fw) :
    @init V A ed tw fw g eh = .ok (preObject V A ed tw fw g nm eh) := by
  have hg : g ∈ TIME_GRANULARITIES := lookup_granularity_mem g nm hlk
  unfold init create_forecaster_dates
  dsimp only
  rw [if_neg (by omega), hlk]
  show (match (preObject V A ed tw fw g nm eh)._validate_construction with
    | .error e => Except.error e
    | .ok _ => Except.ok (preObject V A ed tw fw g nm eh)) = _
  rw [_validate_construction]
  dsimp only [preObject]
  rw [if_neg (not_not_intro h1), if_neg (not_not_intro h2),
    if_neg (not_not_intro hg)]

theorem init_badStartEnd (V A : Type) (ed : DateTime) (tw fw : Int)
    (g nm : String) (eh : Nat) (h24 : eh < 24)
    (hlk : List.lookup g TIME_GRANULARITY_NAME_MAP = some nm)
    (h1 : ¬ ed.addDays (-tw) ≤ ed.replaceHour eh) :
    @init V A ed tw fw g eh
      = .error (.badDatesStartEnd (ed.addDays (-tw)) (ed.replaceHour eh)) := by
  unfold init create_forecaster_dates
  dsimp only
  rw [if_neg (by omega), hlk]
  show (match (preObject V A ed tw fw g nm eh)._validate_construction with
    | .error e => Except.error e
    | .ok _ => Except.ok (preObject V A ed tw fw g nm eh)) = _
  rw [_validate_construction]
  dsimp only [preObject]
  rw [if_pos h1]

theorem init_badEndFuture (V A : Type) (ed : DateTime) (tw fw : Int)
    (g nm : String) (eh : Nat) (h24 : eh < 24)
    (hlk : List.lookup g TIME_GRANULARITY_NAME_MAP = some nm)
    (h1 : ed.addDays (-tw) ≤ ed.replaceHour eh)
    (h2 : ¬ ed.replaceHour eh ≤ ed.addDays fw) :
    @init V A ed tw fw g eh
      = .error (.badDatesEndFuture (ed.replaceHour eh) (ed.addDays fw)) := by
  unfold init create_forecaster_dates
  dsimp only
  rw [if_neg (by omega), hlk]
  show (match (preObject V A ed tw fw g nm eh)._validate_construction with
    | .error e => Except.error e
    | .ok _ => Except.ok (preObject V A ed tw fw g nm eh)) = _
  rw [_validate_construction]
  dsimp only [preObject]
  rw [if_neg (not_not_intro h1), if_pos h2]

theorem init_ok_elim (V A : Type) (ed : DateTime) (tw fw : Int) (g : String)
    (eh : Nat) (t : TimeRangeConfiguration V A)
    (h : @init V A ed tw fw g eh = .ok t) :
    eh < 24 ∧ g ∈ TIME_GRANULARITIES
    ∧ ∃ nm, List.lookup g TIME_GRANULARITY_NAME_MAP = some nm
        ∧ t = preObject V A ed tw fw g nm eh
        ∧ t._start_date ≤ t._end_date ∧ t._end_date ≤ t._future_date := by
  by_cases h24 : eh < 24
  · by_cases hg : g ∈ TIME_GRANULARITIES
    · obtain ⟨nm, hlk⟩ := lookup_granularity_of_mem g hg
      by_cases h1 : ed.addDays (-tw) ≤ ed.replaceHour eh
      · by_cases h2 : ed.replaceHour eh ≤ ed.addDays fw
        · rw [init_ok V A ed tw fw g nm eh h24 hlk h1 h2] at h
          injection h with h
          subst h
          exact ⟨h24, hg, nm, hlk, rfl, h1, h2⟩
        · rw [init_badEndFuture V A ed tw fw g nm eh h24 hlk h1 h2] at h
          cases h
      · rw [init_badStartEnd V A ed tw fw g nm eh h24 hlk h1] at h
        cases h
    · rw [init_keyError V A ed tw fw g eh h24 hg] at h
      cases h
  · unfold init create_forecaster_dates at h
    dsimp only at h
    rw [if_pos (by omega)] at h
    cases h

end TimeRangeConfiguration

namespace TimeRangeConfiguration

/-- C1: for every granularity code not in the enumerated set {H, D, W, M},
constructing `TimeRangeConfiguration` (any end date, any non-negative windows,
`end_hour` at its source default `0`) fails — concretely with the `KeyError`
raised by the `TIME_GRANULARITY_NAME_MAP` lookup, carrying the offending
code — so no fallback granularity is substituted and no constructed object
escapes to the caller. -/
theorem unknown_granularity_rejected (V A : Type) (ed : DateTime)
    (tw fw : Int) (g : String) (htw : 0 ≤ tw) (hfw : 0 ≤ fw)
    (hg : g ∉ TIME_GRANULARITIES) :
    @init V A ed tw fw g 0 = .error (.keyError g) :=
  init_keyError V A ed tw fw g 0 (by omega) hg

theorem unknown_granularity_rejected_witness :
    (0 : Int) ≤ 3 ∧ (0 : Int) ≤ 2 ∧ "X" ∉ TIME_GRANULARITIES
    ∧ @init Int String ⟨0, 0, 0, 0, 0⟩ 3 2 "X" 0 = .error (.keyError "X") :=
  ⟨by decide, by decide, by decide,
   unknown_granularity_rejected Int String ⟨0, 0, 0, 0, 0⟩ 3 2 "X"
     (by decide) (by decide) (by decide)⟩

/-- C2 counterexample: at `end_date = ⟨0, 5, 0, 0, 0⟩` (hour component 5),
`train_window = 0`, `future_window = 0`, granularity `D`, the deriver returns
an ordered triple `start ≤ end ≤ future` (first two conjuncts), yet
construction fails: the default `end_hour = 0` override rewrites the derived
hour of the end date from 5 to 0, dropping it below `start_date`.  This refutes the
claim that construction succeeds for every end date and all non-negative
windows. -/
theorem ordered_deriver_construction_fails :
    (create_forecaster_dates ⟨0, 5, 0, 0, 0⟩ 0 0).1
        ≤ (create_forecaster_dates ⟨0, 5, 0, 0, 0⟩ 0 0).2.1
    ∧ (create_forecaster_dates ⟨0, 5, 0, 0, 0⟩ 0 0).2.1
        ≤ (create_forecaster_dates ⟨0, 5, 0, 0, 0⟩ 0 0).2.2
    ∧ @init Int String ⟨0, 5, 0, 0, 0⟩ 0 0 "D" 0
        = .error (.badDatesStartEnd ⟨0, 5, 0, 0, 0⟩ ⟨0, 0, 0, 0, 0⟩) :=
  ⟨by decide, by decide, rfl⟩

/-- C2 amended: for every component-valid `end_date`, `train_window ≥ 0`,
`future_window ≥ 0` and granularity in the enumerated set, with `end_hour`
left at its default `0`, construction succeeds and the constructed object
satisfies `start_date ≤ end_date ≤ future_date` — provided additionally that
`train_window ≥ 1` or `end_date` has hour component `0` (without this proviso
the claim fails, see the counterexample: the `end_hour` override can pull the
end date below the start date when the two coincide). -/
theorem construction_succeeds_ordered (V A : Type) (ed : DateTime)
    (tw fw : Int) (g : String) (hv : ed.Valid) (htw : 0 ≤ tw)
    (hfw : 0 ≤ fw) (hg : g ∈ TIME_GRANULARITIES)
    (hc : 1 ≤ tw ∨ ed.hour = 0) :
    ∃ t : TimeRangeConfiguration V A,
      @init V A ed tw fw g 0 = .ok t
      ∧ t.start_date ≤ t.end_date ∧ t.end_date ≤ t.future_date := by
  obtain ⟨nm, hlk⟩ := lookup_granularity_of_mem g hg
  have hh : (ed.hour : Int) < 24 := by exact_mod_cast hv.1
  have h1 : ed.addDays (-tw) ≤ ed.replaceHour 0 := by
    rw [DateTime.le_def, DateTime.key_addDays, DateTime.key_replaceHour]
    rcases hc with hc | hc
    · omega
    · omega
  have h2 : ed.replaceHour 0 ≤ ed.addDays fw := by
    rw [DateTime.le_def, DateTime.key_addDays, DateTime.key_replaceHour]
    omega
  exact ⟨preObject V A ed tw fw g nm 0,
    init_ok V A ed tw fw g nm 0 (by omega) hlk h1 h2, h1, h2⟩

theorem construction_succeeds_ordered_witness :
    DateTime.Valid ⟨0, 5, 0, 0, 0⟩ ∧ (0 : Int) ≤ 2 ∧ (0 : Int) ≤ 3
    ∧ "M" ∈ TIME_GRANULARITIES
    ∧ ((1 : Int) ≤ 2 ∨ (⟨0, 5, 0, 0, 0⟩ : DateTime).hour = 0)
    ∧ ∃ t : TimeRangeConfiguration Int String,
        @init Int String ⟨0, 5, 0, 0, 0⟩ 2 3 "M" 0 = .ok t
        ∧ t.start_date ≤ t.end_date ∧ t.end_date ≤ t.future_date :=
  ⟨by decide, by decide, by decide, by decide, by decide,
   construction_succeeds_ordered Int String ⟨0, 5, 0, 0, 0⟩ 2 3 "M"
     (by decide) (by decide) (by decide) (by decide) (by decide)⟩

/-- C3: for every constructor input (with an in-range `end_hour`), if any §3
invariant fails — date ordering after the `end_hour` override, or granularity
membership — then `init` returns an error (so construction is all-or-nothing:
no partially constructed object is observable), and the error value identifies
the violated invariant and carries the offending values: the map-lookup
`KeyError` with the offending code for an unknown granularity, otherwise the
`ValueError` naming the two offending dates of the first violated ordering
check. -/
theorem invariant_failure_is_error (V A : Type) (ed : DateTime)
    (tw fw : Int) (g : String) (eh : Nat) (h24 : eh < 24)
    (hbad : ¬ ed.addDays (-tw) ≤ ed.replaceHour eh
        ∨ ¬ ed.replaceHour eh ≤ ed.addDays fw
        ∨ g ∉ TIME_GRANULARITIES) :
    (g ∉ TIME_GRANULARITIES
        ∧ @init V A ed tw fw g eh = .error (.keyError g))
    ∨ (g ∈ TIME_GRANULARITIES
        ∧ ¬ ed.addDays (-tw) ≤ ed.replaceHour eh
        ∧ @init V A ed tw fw g eh
            = .error (.badDatesStartEnd (ed.addDays (-tw)) (ed.replaceHour eh)))
    ∨ (g ∈ TIME_GRANULARITIES
        ∧ ed.addDays (-tw) ≤ ed.replaceHour eh
        ∧ ¬ ed.replaceHour eh ≤ ed.addDays fw
        ∧ @init V A ed tw fw g eh
            = .error (.badDatesEndFuture (ed.replaceHour eh) (ed.addDays fw))) := by
  by_cases hg : g ∈ TIME_GRANULARITIES
  · obtain ⟨nm, hlk⟩ := lookup_granularity_of_mem g hg
    by_cases h1 : ed.addDays (-tw) ≤ ed.replaceHour eh
    · by_cases h2 : ed.replaceHour eh ≤ ed.addDays fw
      · rcases hbad with hb | hb | hb
        · exact absurd h1 hb
        · exact absurd h2 hb
        · exact absurd hg hb
      · exact Or.inr (Or.inr ⟨hg, h1, h2,
          init_badEndFuture V A ed tw fw g nm eh h24 hlk h1 h2⟩)
    · exact Or.inr (Or.inl ⟨hg, h1,
        init_badStartEnd V A ed tw fw g nm eh h24 hlk h1⟩)
  · exact Or.inl ⟨hg, init_keyError V A ed tw fw g eh h24 hg⟩

theorem invariant_failure_is_error_witness :
    (0 : Nat) < 24
    ∧ (¬ DateTime.addDays ⟨0, 3, 0, 0, 0⟩ (-0) ≤ DateTime.replaceHour ⟨0, 3, 0, 0, 0⟩ 0
        ∨ ¬ DateTime.replaceHour ⟨0, 3, 0, 0, 0⟩ 0 ≤ DateTime.addDays ⟨0, 3, 0, 0, 0⟩ 5
        ∨ "W" ∉ TIME_GRANULARITIES)
    ∧ (("W" ∉ TIME_GRANULARITIES
        ∧ @init Int String ⟨0, 3, 0, 0, 0⟩ 0 5 "W" 0 = .error (.keyError "W"))
    ∨ ("W" ∈ TIME_GRANULARITIES
        ∧ ¬ DateTime.addDays ⟨0, 3, 0, 0, 0⟩ (-0) ≤ DateTime.replaceHour ⟨0, 3, 0, 0, 0⟩ 0
        ∧ @init Int String ⟨0, 3, 0, 0, 0⟩ 0 5 "W" 0
            = .error (.badDatesStartEnd (DateTime.addDays ⟨0, 3, 0, 0, 0⟩ (-0))
                (DateTime.replaceHour ⟨0, 3, 0, 0, 0⟩ 0)))
    ∨ ("W" ∈ TIME_GRANULARITIES
        ∧ DateTime.addDays ⟨0, 3, 0, 0, 0⟩ (-0) ≤ DateTime.replaceHour ⟨0, 3, 0, 0, 0⟩ 0
        ∧ ¬ DateTime.replaceHour ⟨0, 3, 0, 0, 0⟩ 0 ≤ DateTime.addDays ⟨0, 3, 0, 0, 0⟩ 5
        ∧ @init Int String ⟨0, 3, 0, 0, 0⟩ 0 5 "W" 0
            = .error (.badDatesEndFuture (DateTime.replaceHour ⟨0, 3, 0, 0, 0⟩ 0)
                (DateTime.addDays ⟨0, 3, 0, 0, 0⟩ 5)))) :=
  ⟨by decide, by decide,
   invariant_failure_is_error Int String ⟨0, 3, 0, 0, 0⟩ 0 5 "W" 0
     (by decide) (by decide)⟩

/-- C4: every successfully constructed `TimeRangeConfiguration` with
`end_hour = eh` has `end_date.hour = eh` regardless of the hour component of
the end date the deriver produced, while the minute, second and microsecond components of
the derived end date are untouched, and `start_date` and `future_date` are the
values from the deriver, unchanged. -/
theorem end_hour_overrides_only_hour (V A : Type) (ed : DateTime)
    (tw fw : Int) (g : String) (eh : Nat) (t : TimeRangeConfiguration V A)
    (h : @init V A ed tw fw g eh = .ok t) :
    t.end_date.hour = eh
    ∧ t.end_date.minute = (create_forecaster_dates ed tw fw).2.1.minute
    ∧ t.end_date.second = (create_forecaster_dates ed tw fw).2.1.second
    ∧ t.end_date.microsecond = (create_forecaster_dates ed tw fw).2.1.microsecond
    ∧ t.start_date = (create_forecaster_dates ed tw fw).1
    ∧ t.future_date = (create_forecaster_dates ed tw fw).2.2 := by
  obtain ⟨-, -, nm, hlk, ht, -, -⟩ := init_ok_elim V A ed tw fw g eh t h
  subst ht
  exact ⟨rfl, rfl, rfl, rfl, rfl, rfl⟩

theorem end_hour_overrides_only_hour_witness :
    (⟨⟨none, none⟩, ⟨-1, 7, 30, 15, 99⟩, ⟨0, 6, 30, 15, 99⟩, ⟨1, 7, 30, 15, 99⟩,
        1, 1, "H", "hourly"⟩ : TimeRangeConfiguration Int String).end_date.hour = 6
    ∧ (⟨⟨none, none⟩, ⟨-1, 7, 30, 15, 99⟩, ⟨0, 6, 30, 15, 99⟩, ⟨1, 7, 30, 15, 99⟩,
        1, 1, "H", "hourly"⟩ : TimeRangeConfiguration Int String).end_date.minute
        = (create_forecaster_dates ⟨0, 7, 30, 15, 99⟩ 1 1).2.1.minute
    ∧ (⟨⟨none, none⟩, ⟨-1, 7, 30, 15, 99⟩, ⟨0, 6, 30, 15, 99⟩, ⟨1, 7, 30, 15, 99⟩,
        1, 1, "H", "hourly"⟩ : TimeRangeConfiguration Int String).end_date.second
        = (create_forecaster_dates ⟨0, 7, 30, 15, 99⟩ 1 1).2.1.second
    ∧ (⟨⟨none, none⟩, ⟨-1, 7, 30, 15, 99⟩, ⟨0, 6, 30, 15, 99⟩, ⟨1, 7, 30, 15, 99⟩,
        1, 1, "H", "hourly"⟩ : TimeRangeConfiguration Int String).end_date.microsecond
        = (create_forecaster_dates ⟨0, 7, 30, 15, 99⟩ 1 1).2.1.microsecond
    ∧ (⟨⟨none, none⟩, ⟨-1, 7, 30, 15, 99⟩, ⟨0, 6, 30, 15, 99⟩, ⟨1, 7, 30, 15, 99⟩,
        1, 1, "H", "hourly"⟩ : TimeRangeConfiguration Int String).start_date
        = (create_forecaster_dates ⟨0, 7, 30, 15, 99⟩ 1 1).1
    ∧ (⟨⟨none, none⟩, ⟨-1, 7, 30, 15, 99⟩, ⟨0, 6, 30, 15, 99⟩, ⟨1, 7, 30, 15, 99⟩,
        1, 1, "H", "hourly"⟩ : TimeRangeConfiguration Int String).future_date
        = (create_forecaster_dates ⟨0, 7, 30, 15, 99⟩ 1 1).2.2 :=
  end_hour_overrides_only_hour Int String ⟨0, 7, 30, 15, 99⟩ 1 1 "H" 6 _ rfl

/-- C5: on every successfully constructed `TimeRangeConfiguration`, each of
the four granularity predicates returns true iff the `time_granularity` code
passed at construction equals its enumerated code (the stored code being
exactly the one passed in), and exactly one of the four predicates is true. -/
theorem granularity_predicates_partition (V A : Type) (ed : DateTime)
    (tw fw : Int) (g : String) (eh : Nat) (t : TimeRangeConfiguration V A)
    (h : @init V A ed tw fw g eh = .ok t) :
    t.time_granularity = g
    ∧ (t.is_hourly = true ↔ g = HOURLY_TIME_GRANULARITY)
    ∧ (t.is_daily = true ↔ g = DAILY_TIME_GRANULARITY)
    ∧ (t.is_weekly = true ↔ g = WEEKLY_TIME_GRANULARITY)
    ∧ (t.is_monthly = true ↔ g = MONTHLY_TIME_GRANULARITY)
    ∧ [t.is_hourly, t.is_daily, t.is_weekly, t.is_monthly].count true = 1 := by
  obtain ⟨-, hg, nm, hlk, ht, -, -⟩ := init_ok_elim V A ed tw fw g eh t h
  subst ht
  refine ⟨rfl, ?_, ?_, ?_, ?_, ?_⟩
  · exact beq_iff_eq
  · exact beq_iff_eq
  · exact beq_iff_eq
  · exact beq_iff_eq
  · rw [mem_granularities_iff] at hg
    rcases hg with hgc | hgc | hgc | hgc <;> subst hgc <;> rfl

theorem granularity_predicates_partition_witness :
    (⟨⟨none, none⟩, ⟨-1, 0, 0, 0, 0⟩, ⟨0, 0, 0, 0, 0⟩, ⟨1, 0, 0, 0, 0⟩,
        1, 1, "M", "monthly"⟩ : TimeRangeConfiguration Int String).time_granularity = "M"
    ∧ ((⟨⟨none, none⟩, ⟨-1, 0, 0, 0, 0⟩, ⟨0, 0, 0, 0, 0⟩, ⟨1, 0, 0, 0, 0⟩,
        1, 1, "M", "monthly"⟩ : TimeRangeConfiguration Int String).is_hourly = true
        ↔ "M" = HOURLY_TIME_GRANULARITY)
    ∧ ((⟨⟨none, none⟩, ⟨-1, 0, 0, 0, 0⟩, ⟨0, 0, 0, 0, 0⟩, ⟨1, 0, 0, 0, 0⟩,
        1, 1, "M", "monthly"⟩ : TimeRangeConfiguration Int String).is_daily = true
        ↔ "M" = DAILY_TIME_GRANULARITY)
    ∧ ((⟨⟨none, none⟩, ⟨-1, 0, 0, 0, 0⟩, ⟨0, 0, 0, 0, 0⟩, ⟨1, 0, 0, 0, 0⟩,
        1, 1, "M", "monthly"⟩ : TimeRangeConfiguration Int String).is_weekly = true
        ↔ "M" = WEEKLY_TIME_GRANULARITY)
    ∧ ((⟨⟨none, none⟩, ⟨-1, 0, 0, 0, 0⟩, ⟨0, 0, 0, 0, 0⟩, ⟨1, 0, 0, 0, 0⟩,
        1, 1, "M", "monthly"⟩ : TimeRangeConfiguration Int String).is_monthly = true
        ↔ "M" = MONTHLY_TIME_GRANULARITY)
    ∧ [(⟨⟨none, none⟩, ⟨-1, 0, 0, 0, 0⟩, ⟨0, 0, 0, 0, 0⟩, ⟨1, 0, 0, 0, 0⟩,
        1, 1, "M", "monthly"⟩ : TimeRangeConfiguration Int String).is_hourly,
       (⟨⟨none, none⟩, ⟨-1, 0, 0, 0, 0⟩, ⟨0, 0, 0, 0, 0⟩, ⟨1, 0, 0, 0, 0⟩,
        1, 1, "M", "monthly"⟩ : TimeRangeConfiguration Int String).is_daily,
       (⟨⟨none, none⟩, ⟨-1, 0, 0, 0, 0⟩, ⟨0, 0, 0, 0, 0⟩, ⟨1, 0, 0, 0, 0⟩,
        1, 1, "M", "monthly"⟩ : TimeRangeConfiguration Int String).is_weekly,
       (⟨⟨none, none⟩, ⟨-1, 0, 0, 0, 0⟩, ⟨0, 0, 0, 0, 0⟩, ⟨1, 0, 0, 0, 0⟩,
        1, 1, "M", "monthly"⟩ : TimeRangeConfiguration Int String).is_monthly].count true = 1 :=
  granularity_predicates_partition Int String ⟨0, 0, 0, 0, 0⟩ 1 1 "M" 0 _ rfl

end TimeRangeConfiguration
